import Mathlib

/-!
Shallow embedding of the WayPointDB-AirTag-Integration core
(`src/core.py`, with the legacy variant `src/AirTag-grabber.py` where
relevant), covering the item data model, the change detector, the
pending-delivery queue with its persistence layer, and the delivery
attempter, together with proofs of the specified properties.

Python floats are modelled as `Rat` (exact values; the program compares
them only with `==`/`!=`).  Python strings are modelled as `String`,
with the handful of string operations the program uses (`split(sep, 1)`,
`endswith`, `startswith`, `in`) re-implemented structurally over the
character list so that they evaluate by kernel reduction.  Python dicts
(insertion-ordered, unique keys) are modelled as association lists with
insert-or-replace assignment.  The network is an oracle argument: a
delivery attempt receives `Option Nat` — `some code` for an HTTP
response with that status, `none` for a raised exception
(network/timeout failure).  File I/O is modelled by keeping the
persisted JSON value in the state.
-/

set_option maxRecDepth 4000

namespace WayPointDB

/-! ## JSON values (abstract form of what `json.dump`/`json.load` handle) -/

/-- Abstract JSON value.  Numbers are exact rationals; objects are
insertion-ordered field lists, as produced by Python's `json` module. -/
inductive Json where
  | null : Json
  | bool (b : Bool) : Json
  | num (q : Rat) : Json
  | str (s : String) : Json
  | arr (elems : List Json) : Json
  | obj (fields : List (String × Json)) : Json

/-- `data` is a Python dict (`isinstance(data, dict)`). -/
def Json.isObjB : Json → Bool
  | .obj _ => true
  | _ => false

/-! ## Data model (`ItemLocation`, `FindMyItem`, config rows, payload points) -/

/-- `class ItemLocation` of `core.py`: one location fix. -/
structure ItemLocation where
  latitude : Rat
  longitude : Rat
  timeStamp : Rat
  horizontalAccuracy : Rat
  verticalAccuracy : Rat
  altitude : Rat
deriving DecidableEq, Repr

/-- `class FindMyItem` of `core.py`.  `location` is `None` or an
`ItemLocation`. -/
structure FindMyItem where
  name : String
  serialNumber : String
  batteryStatus : Option String
  location : Option ItemLocation
deriving DecidableEq, Repr

/-- One row of `config["tag_configs"]`: `{serial, server_url, api_key}`. -/
structure TagRow where
  serial : String
  server_url : String
  api_key : String
deriving DecidableEq, Repr

/-- One entry of the `gps_data` batch payload, in the exact field order
`send_item_location` builds it (`new_data_point` in `core.py`). -/
structure DataPoint where
  timestamp : String
  latitude : Rat
  longitude : Rat
  horizontal_accuracy : Rat
  altitude : Rat
  vertical_accuracy : Rat
  heading : Rat
  heading_accuracy : Rat
  speed : Rat
  speed_accuracy : Rat
deriving DecidableEq, Repr

/-- `new_data_point` of `send_item_location`: the queued/wire form of a
fix; `timestamp` is `str(loc.timeStamp)` and the four motion fields are
the constant `0`. -/
def mkDataPoint (loc : ItemLocation) : DataPoint :=
  { timestamp := toString loc.timeStamp
    latitude := loc.latitude
    longitude := loc.longitude
    horizontal_accuracy := loc.horizontalAccuracy
    altitude := loc.altitude
    vertical_accuracy := loc.verticalAccuracy
    heading := 0
    heading_accuracy := 0
    speed := 0
    speed_accuracy := 0 }

/-! ## Python dict operations, as insertion-ordered association lists -/

/-- `d[k]` / `d.get(k)`: value of the (unique) binding of `k`, if any. -/
def dictGet {α : Type} : List (String × α) → String → Option α
  | [], _ => none
  | (k0, v0) :: rest, k => if k0 == k then some v0 else dictGet rest k

/-- `d[k] = v`: replace the binding of `k` in place, or append a new
binding at the end (Python dicts keep insertion order). -/
def dictSet {α : Type} : List (String × α) → String → α → List (String × α)
  | [], k, v => [(k, v)]
  | (k0, v0) :: rest, k, v =>
      if k0 == k then (k, v) :: rest else (k0, v0) :: dictSet rest k v

/-! ## Python string operations, structural over the character list -/

/-- First occurrence split: `some (before, after)` when `sep` occurs in
`s`, scanning left to right. -/
def splitOnceAux (sep : List Char) : List Char → Option (List Char × List Char)
  | [] => none
  | c :: rest =>
      if sep.isPrefixOf (c :: rest) then
        some ([], (c :: rest).drop sep.length)
      else
        match splitOnceAux sep rest with
        | some (pre, post) => some (c :: pre, post)
        | none => none

/-- Python `s.split(sep, 1)`: `[s]` when `sep` does not occur, otherwise
the part before the first occurrence and everything after it. -/
def pySplitOnce (sep s : String) : List String :=
  match splitOnceAux sep.toList s.toList with
  | some (pre, post) => [String.mk pre, String.mk post]
  | none => [s]

/-- Python `s.endswith(p)`. -/
def pyEndsWith (s p : String) : Bool :=
  p.toList.isSuffixOf s.toList

/-- Python `s.startswith(p)`. -/
def pyStartsWith (s p : String) : Bool :=
  p.toList.isPrefixOf s.toList

/-- Split on every occurrence of a one-character separator
(`"a&b&".split("&") = ["a", "b", ""]`). -/
def splitAllChar (sep : Char) : List Char → List (List Char)
  | [] => [[]]
  | c :: rest =>
      if c = sep then [] :: splitAllChar sep rest
      else
        match splitAllChar sep rest with
        | g :: gs => (c :: g) :: gs
        | [] => [[c]]

/-! ## `urllib.parse` fragment used by the program

`urlparse` is modelled only to the extent the program uses it: the URL
is split at the first `?` into the part before the query and the query
string.  `parse_qs` with default options splits the query on `&`,
splits each chunk at the first `=`, and drops empty chunks, chunks
without `=`, and chunks with an empty value; values with the same name
accumulate in one list.  Percent-decoding is not modelled (the program
only ever feeds the query back through `urlencode`). -/

/-- One `parse_qsl` pair: `none` for a chunk `parse_qs` drops. -/
def parseQSChunk (chunk : List Char) : Option (String × String) :=
  if chunk.isEmpty then none
  else
    match splitOnceAux ['='] chunk with
    | none => none
    | some (name, value) =>
        if value.isEmpty then none
        else some (String.mk name, String.mk value)

/-- Add one `(name, value)` pair to a `parse_qs`-style multidict. -/
def multidictAdd (d : List (String × List String)) (k v : String) :
    List (String × List String) :=
  match dictGet d k with
  | some vs => dictSet d k (vs ++ [v])
  | none => dictSet d k [v]

/-- Python `parse_qs(query)`: name → list of values, names in first-seen
order. -/
def parseQS (q : String) : List (String × List String) :=
  ((splitAllChar '&' q.toList).filterMap parseQSChunk).foldl
    (fun d p => multidictAdd d p.1 p.2) []

/-- `urlparse(url)` restricted to what the program reads back: the text
before the first `?` and the parsed query dict. -/
def splitAtQuery (url : String) : String × String :=
  match pySplitOnce "?" url with
  | [pre, q] => (pre, q)
  | _ => (url, "")

/-! ## JSON encoding of the pending store (`json.dump` / `json.load`) -/

/-- The in-memory `self.pending_data`: composite string key →
insertion-ordered list of queued points. -/
def PendingData : Type := List (String × List DataPoint)

/-- JSON object `json.dump` writes for one data point, fields in
insertion order. -/
def encodeDataPoint (p : DataPoint) : Json :=
  .obj [("timestamp", .str p.timestamp),
        ("latitude", .num p.latitude),
        ("longitude", .num p.longitude),
        ("horizontal_accuracy", .num p.horizontal_accuracy),
        ("altitude", .num p.altitude),
        ("vertical_accuracy", .num p.vertical_accuracy),
        ("heading", .num p.heading),
        ("heading_accuracy", .num p.heading_accuracy),
        ("speed", .num p.speed),
        ("speed_accuracy", .num p.speed_accuracy)]

/-- JSON value `save_pending_data` writes for the whole store. -/
def encodePendingData (d : PendingData) : Json :=
  .obj (d.map (fun e => (e.1, .arr (e.2.map encodeDataPoint))))

/-- Read one data point back out of its JSON object form. -/
def decodeDataPoint (j : Json) : Option DataPoint :=
  match j with
  | .obj [("timestamp", .str t),
          ("latitude", .num la),
          ("longitude", .num lo),
          ("horizontal_accuracy", .num ha),
          ("altitude", .num al),
          ("vertical_accuracy", .num va),
          ("heading", .num he),
          ("heading_accuracy", .num ha2),
          ("speed", .num sp),
          ("speed_accuracy", .num sa)] =>
      some ⟨t, la, lo, ha, al, va, he, ha2, sp, sa⟩
  | _ => none

/-- Read a JSON array back as a list of data points. -/
def decodePointList : List Json → Option (List DataPoint)
  | [] => some []
  | j :: rest =>
      match decodeDataPoint j, decodePointList rest with
      | some p, some ps => some (p :: ps)
      | _, _ => none

/-- Read the persisted JSON object entries back as a pending store. -/
def decodeEntries : List (String × Json) → Option PendingData
  | [] => some []
  | (k, .arr es) :: rest =>
      match decodePointList es, decodeEntries rest with
      | some ps, some d => some ((k, ps) :: d)
      | _, _ => none
  | _ => none

/-- Read a persisted JSON value back as a pending store. -/
def decodePendingData (j : Json) : Option PendingData :=
  match j with
  | .obj kvs => decodeEntries kvs
  | _ => none

/-! ## Persistence (`load_pending_data` / `save_pending_data`) -/

/-- State of `pending_data.json` as `load_pending_data` can encounter
it: missing (`not os.path.isfile`), unreadable or unparsable (the
`except` branch), or holding a parsed JSON value. -/
inductive FileState where
  | missing : FileState
  | corrupt : FileState
  | content (j : Json) : FileState

/-- `load_pending_data` of `core.py`: missing file, read/parse failure,
and non-dict content all yield the empty dict; a dict is returned
as-is. -/
def load_pending_data : FileState → Json
  | .missing => .obj []
  | .corrupt => .obj []
  | .content j =>
      match j with
      | .obj kvs => .obj kvs
      | _ => .obj []

/-- `save_pending_data`: the JSON value `json.dump` writes to
`pending_data.json`. -/
def save_pending_data (d : PendingData) : Json :=
  encodePendingData d

/-! ## Monitor state and the delivery attempter -/

/-- The single batched HTTP request `attempt_send_pending` (or, in the
legacy variant, `send_item_location`) issues, in parsed-URL form:
`preQuery` is the URL text before the query, `query` the final query
dict after `qdict["api_key"] = [api_key]`, and `gpsData` the value of
the `"gps_data"` field of the JSON body.  `requests.post(..., timeout=10)`. -/
structure HttpRequest where
  method : String
  preQuery : String
  query : List (String × List String)
  gpsData : List DataPoint
  timeoutSec : Nat
deriving Repr

/-- Mutable fields of `ItemsDataMonitor` that the core pipeline touches,
plus the modelled persisted file. -/
structure MonitorState where
  config : List TagRow
  last_items : List FindMyItem
  last_sent_timestamps : List (String × Rat)
  pending_data : PendingData
  disk : FileState

/-- `server_url + "/"` normalisation done in both
`send_item_location` and `attempt_send_pending`. -/
def withSlash (u : String) : String :=
  if pyEndsWith u "/" then u else u ++ "/"

/-- The fixed sub-path appended to the destination base URL. -/
def gpsBatchPath : String := "api/v1/gps/batch"

/-- `attempt_send_pending(self, pending_key, api_key)`.  `resp` is the
network oracle for the single `requests.post`: `some code` for a
response with that status, `none` for a raised exception; `now` is
`time.time()`.  Returns the new state and the request actually issued
(`none` when an early return fires before the POST). -/
def attempt_send_pending (st : MonitorState) (pending_key api_key : String)
    (resp : Option Nat) (now : Rat) : MonitorState × Option HttpRequest :=
  match dictGet st.pending_data pending_key with
  | none => (st, none)
  | some pts =>
      if pts.isEmpty then (st, none)
      else
        match pySplitOnce "::" pending_key with
        | [serial_num, base_url0] =>
            let base_url := withSlash base_url0
            let final_url := base_url ++ gpsBatchPath
            let parsed := splitAtQuery final_url
            let qdict := dictSet (parseQS parsed.2) "api_key" [api_key]
            let req : HttpRequest :=
              { method := "POST", preQuery := parsed.1, query := qdict,
                gpsData := pts, timeoutSec := 10 }
            match resp with
            | some code =>
                if code = 200 then
                  let pending' := dictSet st.pending_data pending_key []
                  ({ st with
                      last_sent_timestamps :=
                        dictSet st.last_sent_timestamps serial_num now,
                      pending_data := pending',
                      disk := .content (encodePendingData pending') },
                   some req)
                else (st, some req)
            | none => (st, some req)
        | _ => (st, none)

/-- Result of `row.get("server_url", "")` passing both guards of
`send_item_location`: non-empty, and the URL with the sub-path appended
starts with a recognised scheme. -/
def validServerUrl (u : String) : Bool :=
  !(u == "") &&
    (pyStartsWith (withSlash u ++ gpsBatchPath) "http://" ||
     pyStartsWith (withSlash u ++ gpsBatchPath) "https://")

/-- A network oracle: the outcome of a POST, per pending key. -/
def Oracle : Type := String → Option Nat

/-- `send_item_location(self, item, row)`: build the data point, append
it to the pending queue for `serial::server_url`, persist, then flush
the whole queue through `attempt_send_pending`. -/
def send_item_location (o : Oracle) (st : MonitorState) (item : FindMyItem)
    (row : TagRow) (now : Rat) : MonitorState × Option HttpRequest :=
  match item.location with
  | none => (st, none)
  | some loc =>
      if row.server_url == "" then (st, none)
      else
        let server_url := withSlash row.server_url
        let server_url_with_path := server_url ++ gpsBatchPath
        if !(pyStartsWith server_url_with_path "http://" ||
             pyStartsWith server_url_with_path "https://") then (st, none)
        else
          let new_data_point := mkDataPoint loc
          let pending_key := item.serialNumber ++ "::" ++ server_url
          let pending' :=
            dictSet st.pending_data pending_key
              ((dictGet st.pending_data pending_key).getD [] ++ [new_data_point])
          let st' := { st with
                        pending_data := pending',
                        disk := .content (encodePendingData pending') }
          attempt_send_pending st' pending_key row.api_key (o pending_key) now

/-- `send_item_location_to_all_configs(self, item)`: one
`send_item_location` per config row whose `serial` matches the item. -/
def send_item_location_to_all_configs (o : Oracle) (st : MonitorState)
    (item : FindMyItem) (now : Rat) : MonitorState :=
  let matching_rows := st.config.filter (fun row => row.serial == item.serialNumber)
  matching_rows.foldl (fun s row => (send_item_location o s item row now).1) st

/-- Repeated delivery attempts for one key, one oracle answer per
attempt (the state thread of M successive `attempt_send_pending`
calls). -/
def attemptMany (st : MonitorState) (pending_key api_key : String)
    (resps : List (Option Nat)) (now : Rat) : MonitorState :=
  resps.foldl (fun s r => (attempt_send_pending s pending_key api_key r now).1) st

/-- The request `attempt_send_pending` issues for base URL `base`, API
key `api_key` and queued points `pts` (the URL-construction block of
`attempt_send_pending`, named for reuse in statements). -/
def batchRequest (base api_key : String) (pts : List DataPoint) : HttpRequest :=
  let final_url := withSlash base ++ gpsBatchPath
  let parsed := splitAtQuery final_url
  { method := "POST"
    preQuery := parsed.1
    query := dictSet (parseQS parsed.2) "api_key" [api_key]
    gpsData := pts
    timeoutSec := 10 }

/-- A row of `tag_configs` through which `send_item_location` actually
appends to (and flushes) the queue for key `k` of item `item`: the row
passes both URL guards and its normalised key is `k`. -/
def rowSendsToKey (item : FindMyItem) (k : String) (row : TagRow) : Bool :=
  validServerUrl row.server_url &&
    (item.serialNumber ++ "::" ++ withSlash row.server_url == k)

/-! ## Source reader (`check_items_data`, parsing part) -/

/-- The nested `location` object of one `Items.data` record, as a field
map (a field is simply absent when the source did not report it). -/
def RawLocation : Type := List (String × Rat)

/-- One record of the `Items.data` snapshot, restricted to the fields
`check_items_data` reads. -/
structure RawRecord where
  name : String
  serialNumber : String
  batteryStatus : Option String
  location : Option RawLocation

/-- `loc_data.get(field, 0.0)`. -/
def rawGet (d : RawLocation) (k : String) (deflt : Rat) : Rat :=
  (dictGet d k).getD deflt

/-- The per-record body of `check_items_data`'s parsing loop in
`core.py`: `loc_data = d.get("location", {})`, every location field
defaulted to `0.0`, the raw `timeStamp` divided by 1000, and an
`ItemLocation` always constructed (never `None`). -/
def parse_item (d : RawRecord) : FindMyItem :=
  let loc_data := d.location.getD []
  let loc : ItemLocation :=
    { latitude := rawGet loc_data "latitude" 0
      longitude := rawGet loc_data "longitude" 0
      timeStamp := rawGet loc_data "timeStamp" 0 / 1000
      horizontalAccuracy := rawGet loc_data "horizontalAccuracy" 0
      verticalAccuracy := rawGet loc_data "verticalAccuracy" 0
      altitude := rawGet loc_data "altitude" 0 }
  { name := d.name
    serialNumber := d.serialNumber
    batteryStatus := d.batteryStatus
    location := some loc }

/-- The `new_items` list `check_items_data` builds from the snapshot. -/
def parse_items (ds : List RawRecord) : List FindMyItem :=
  ds.map parse_item

/-- The all-zero fix a record with no `location` object parses to. -/
def zeroLocation : ItemLocation :=
  { latitude := 0, longitude := 0, timeStamp := 0,
    horizontalAccuracy := 0, verticalAccuracy := 0, altitude := 0 }

/-! ## Change detector (`location_has_changed`) -/

/-- `location_has_changed(self, new_item)` of `core.py`:
`next((x for x in self.last_items if x.serialNumber == new_item.serialNumber), None)`,
`True` when no old item exists, `False` when either location is `None`,
otherwise exact inequality on `timeStamp`, `latitude`, `longitude`. -/
def location_has_changed (last_items : List FindMyItem)
    (new_item : FindMyItem) : Bool :=
  match last_items.find? (fun x => x.serialNumber == new_item.serialNumber) with
  | none => true
  | some old_item =>
      match old_item.location, new_item.location with
      | some ol, some nl =>
          (ol.timeStamp != nl.timeStamp) ||
          (ol.latitude != nl.latitude) ||
          (ol.longitude != nl.longitude)
      | _, _ => false

/-- Modelled from the spec (§4.2 Change Detector), for comparison with
the source's `location_has_changed`: an item with no previous
counterpart is always changed (first sighting); an item whose previous
or new location is absent is treated as unchanged; otherwise it is
changed iff timestamp, latitude, or longitude differs by exact
inequality. -/
def specChangeDetector (prev : List FindMyItem) (item : FindMyItem) : Bool :=
  if !(prev.any (fun x => x.serialNumber == item.serialNumber)) then
    true
  else
    match prev.find? (fun x => x.serialNumber == item.serialNumber) with
    | none => true
    | some counterpart =>
        match counterpart.location with
        | none => false
        | some prevLoc =>
            match item.location with
            | none => false
            | some newLoc =>
                decide (prevLoc.timeStamp ≠ newLoc.timeStamp ∨
                        prevLoc.latitude ≠ newLoc.latitude ∨
                        prevLoc.longitude ≠ newLoc.longitude)

/-! ## Legacy variant (`AirTag-grabber.py`): delivery request builder -/

/-- The agreement between the persisted file and the in-memory store:
`save_pending_data` runs after every mutation, so the file holds the
encoding of the current store. -/
def diskInv (st : MonitorState) : Prop :=
  st.disk = .content (encodePendingData st.pending_data)

/-! ## Concrete fixtures for instantiating proved properties -/

/-- A network that always answers HTTP 500. -/
def failOracle : Oracle := fun _ => some 500

def testLoc : ItemLocation :=
  { latitude := 1, longitude := 2, timeStamp := 1000,
    horizontalAccuracy := 5, verticalAccuracy := 3, altitude := 100 }

def testItem : FindMyItem :=
  { name := "Tag", serialNumber := "ABCD", batteryStatus := none,
    location := some testLoc }

def testRow : TagRow :=
  { serial := "ABCD", server_url := "http://h", api_key := "k1" }

def testRow2 : TagRow :=
  { serial := "ABCD", server_url := "http://h", api_key := "k2" }

def testKey : String := "ABCD::http://h/"

def testPoint : DataPoint := mkDataPoint testLoc

def testPending : PendingData := [(testKey, [testPoint])]

/-- A monitor with one point already queued and file in sync. -/
def testState : MonitorState :=
  { config := [testRow], last_items := [], last_sent_timestamps := [],
    pending_data := testPending,
    disk := .content (encodePendingData testPending) }

/-- A monitor with an empty queue and file in sync. -/
def emptyState : MonitorState :=
  { config := [testRow], last_items := [], last_sent_timestamps := [],
    pending_data := [], disk := .content (encodePendingData []) }

def oldTestItem : FindMyItem :=
  { name := "Old", serialNumber := "ABCD", batteryStatus := none,
    location := some { latitude := 1, longitude := 2, timeStamp := 10,
                       horizontalAccuracy := 5, verticalAccuracy := 5,
                       altitude := 0 } }

/-- Same serial and same timestamp/latitude/longitude as
`oldTestItem`, different accuracy fields. -/
def newTestItemAcc : FindMyItem :=
  { name := "New", serialNumber := "ABCD", batteryStatus := none,
    location := some { latitude := 1, longitude := 2, timeStamp := 10,
                       horizontalAccuracy := 99, verticalAccuracy := 42,
                       altitude := 7 } }

/-- A snapshot record with no `location` object at all. -/
def noLocRecord : RawRecord :=
  { name := "X", serialNumber := "S9", batteryStatus := none,
    location := none }

/-! ## Association-list lemmas -/

theorem dictGet_dictSet_self {α : Type} (d : List (String × α)) (k : String)
    (v : α) : dictGet (dictSet d k v) k = some v := by
  induction d with
  | nil => simp [dictGet, dictSet]
  | cons hd tl ih =>
      obtain ⟨k0, v0⟩ := hd
      by_cases h : k0 = k
      · subst h; simp [dictGet, dictSet]
      · simpa [dictGet, dictSet, h] using ih

theorem dictGet_dictSet_ne {α : Type} (d : List (String × α)) (k k' : String)
    (v : α) (h : k' ≠ k) : dictGet (dictSet d k v) k' = dictGet d k' := by
  induction d with
  | nil => simp [dictGet, dictSet, Ne.symm h]
  | cons hd tl ih =>
      obtain ⟨k0, v0⟩ := hd
      by_cases h0 : k0 = k
      · subst h0
        simp [dictGet, dictSet, Ne.symm h]
      · by_cases h1 : k0 = k'
        · subst h1; simp [dictGet, dictSet, h0]
        · simpa [dictGet, dictSet, h0, h1] using ih

/-! ## Behaviour of one delivery attempt -/

/-- A non-200 response or a raised exception leaves the monitor state —
queue, disk file, and last-sent table — completely unchanged. -/
theorem attempt_send_pending_fail (st : MonitorState)
    (pending_key api_key : String) (resp : Option Nat) (now : Rat)
    (hr : resp ≠ some 200) :
    (attempt_send_pending st pending_key api_key resp now).1 = st := by
  unfold attempt_send_pending
  cases hq : dictGet st.pending_data pending_key with
  | none => rfl
  | some pts =>
      cases pts with
      | nil => rfl
      | cons p ps =>
          simp only [List.isEmpty_cons, if_false, Bool.false_eq_true]
          cases hs : pySplitOnce "::" pending_key with
          | nil => rfl
          | cons a rest =>
              cases rest with
              | nil => rfl
              | cons b rest2 =>
                  cases rest2 with
                  | nil =>
                      cases resp with
                      | none => rfl
                      | some code =>
                          have hc : code ≠ 200 := fun h => hr (by rw [h])
                          simp [hc]
                  | cons c rest3 => rfl

/-- Any number of failed delivery attempts in sequence leaves the state
unchanged. -/
theorem attemptMany_fail (st : MonitorState) (pending_key api_key : String)
    (resps : List (Option Nat)) (now : Rat)
    (hr : ∀ r ∈ resps, r ≠ some 200) :
    attemptMany st pending_key api_key resps now = st := by
  induction resps generalizing st with
  | nil => rfl
  | cons r rs ih =>
      have h1 : (attempt_send_pending st pending_key api_key r now).1 = st :=
        attempt_send_pending_fail st pending_key api_key r now
          (hr r (List.mem_cons_self r rs))
      have h2 : ∀ x ∈ rs, x ≠ some 200 := fun x hx => hr x (List.mem_cons_of_mem r hx)
      unfold attemptMany at ih ⊢
      rw [List.foldl_cons, h1]
      exact ih st h2

/-- When the queue for a well-formed key is non-empty, the attempt
issues exactly the batch request over the full queue, whatever the
network outcome. -/
theorem attempt_send_pending_req (st : MonitorState)
    (pending_key api_key serial base : String) (resp : Option Nat) (now : Rat)
    (pts : List DataPoint)
    (hq : dictGet st.pending_data pending_key = some pts) (hne : pts ≠ [])
    (hs : pySplitOnce "::" pending_key = [serial, base]) :
    (attempt_send_pending st pending_key api_key resp now).2 =
      some (batchRequest base api_key pts) := by
  unfold attempt_send_pending
  rw [hq]
  cases pts with
  | nil => exact absurd rfl hne
  | cons p ps =>
      simp only [List.isEmpty_cons, if_false, Bool.false_eq_true]
      rw [hs]
      cases resp with
      | none => rfl
      | some code =>
          by_cases hc : code = 200 <;> simp [hc, batchRequest]

/-- An HTTP 200 response clears the queue for the key, persists the
cleared store, and records `now` as the serial's last-sent time. -/
theorem attempt_send_pending_success (st : MonitorState)
    (pending_key api_key serial base : String) (now : Rat)
    (pts : List DataPoint)
    (hq : dictGet st.pending_data pending_key = some pts) (hne : pts ≠ [])
    (hs : pySplitOnce "::" pending_key = [serial, base]) :
    (attempt_send_pending st pending_key api_key (some 200) now).1 =
      { st with
          last_sent_timestamps := dictSet st.last_sent_timestamps serial now,
          pending_data := dictSet st.pending_data pending_key [],
          disk := .content (encodePendingData (dictSet st.pending_data pending_key [])) } := by
  unfold attempt_send_pending
  rw [hq]
  cases pts with
  | nil => exact absurd rfl hne
  | cons p ps =>
      simp only [List.isEmpty_cons, if_false, Bool.false_eq_true]
      rw [hs]
      simp

/-! ## Behaviour of one append-and-flush (`send_item_location`) -/

/-- With an always-failing network, `send_item_location` appends exactly
one copy of the item's fix to the queue of the key built from serial and
normalised base URL — when the row passes the URL guards — and leaves
the queue untouched otherwise. -/
theorem send_item_location_pending_fail (o : Oracle)
    (st : MonitorState) (item : FindMyItem) (loc : ItemLocation)
    (row : TagRow) (now : Rat)
    (ho : ∀ k, o k ≠ some 200) (hloc : item.location = some loc) :
    (send_item_location o st item row now).1.pending_data =
      if validServerUrl row.server_url then
        dictSet st.pending_data
          (item.serialNumber ++ "::" ++ withSlash row.server_url)
          ((dictGet st.pending_data
              (item.serialNumber ++ "::" ++ withSlash row.server_url)).getD []
            ++ [mkDataPoint loc])
      else st.pending_data := by
  unfold send_item_location validServerUrl
  rw [hloc]
  by_cases h1 : row.server_url = ""
  · simp [h1, pyStartsWith, gpsBatchPath, withSlash, pyEndsWith]
  · have hb1 : (row.server_url == "") = false := by simp [h1]
    rw [hb1]
    simp only [Bool.false_eq_true, if_false, Bool.not_false, Bool.true_and]
    cases hB : (pyStartsWith (withSlash row.server_url ++ gpsBatchPath) "http://" ||
                pyStartsWith (withSlash row.server_url ++ gpsBatchPath) "https://") with
    | false => simp
    | true =>
        simp only [Bool.not_true, Bool.false_eq_true, if_false, if_true]
        rw [attempt_send_pending_fail _ _ _ _ _
          (ho (item.serialNumber ++ "::" ++ withSlash row.server_url))]

/-- `send_item_location` never passes through the guards when the row's
URL is invalid: the state is returned unchanged. -/
theorem send_item_location_invalid (o : Oracle)
    (st : MonitorState) (item : FindMyItem) (loc : ItemLocation)
    (row : TagRow) (now : Rat)
    (hloc : item.location = some loc)
    (hrow : validServerUrl row.server_url = false) :
    (send_item_location o st item row now).1 = st := by
  unfold send_item_location
  rw [hloc]
  unfold validServerUrl at hrow
  by_cases h1 : row.server_url = ""
  · simp [h1]
  · have hb1 : (row.server_url == "") = false := by simp [h1]
    rw [hb1] at hrow
    simp only [Bool.not_false, Bool.true_and] at hrow
    rw [hb1]
    simp [hrow]

/-! ## Disk/memory agreement (`save_pending_data` after every mutation) -/

theorem attempt_send_pending_diskInv (st : MonitorState)
    (pending_key api_key : String) (resp : Option Nat) (now : Rat)
    (h : diskInv st) :
    diskInv (attempt_send_pending st pending_key api_key resp now).1 := by
  unfold diskInv at h ⊢
  unfold attempt_send_pending
  split
  · exact h
  · split
    · exact h
    · split
      · split
        · split
          · rfl
          · exact h
        · exact h
      · exact h

theorem send_item_location_diskInv (o : Oracle) (st : MonitorState)
    (item : FindMyItem) (row : TagRow) (now : Rat) (h : diskInv st) :
    diskInv (send_item_location o st item row now).1 := by
  unfold send_item_location
  split
  · exact h
  · split
    · exact h
    · dsimp only
      split
      · exact h
      · exact attempt_send_pending_diskInv _ _ _ _ _ rfl

/-! ## The fan-out loop: one append per matching row -/

/-- Driving `send_item_location` over a row list with an always-failing
network: each row that passes the guards contributes exactly one copy of
the item's fix to the queue of its key; queues of other keys are
untouched. -/
theorem foldSend_pending (o : Oracle) (item : FindMyItem)
    (loc : ItemLocation) (now : Rat)
    (ho : ∀ k, o k ≠ some 200) (hloc : item.location = some loc)
    (rows : List TagRow) :
    ∀ (st : MonitorState) (k : String),
      dictGet ((rows.foldl
          (fun s row => (send_item_location o s item row now).1) st).pending_data) k =
        if rows.countP (rowSendsToKey item k) = 0 then
          dictGet st.pending_data k
        else
          some ((dictGet st.pending_data k).getD [] ++
                List.replicate (rows.countP (rowSendsToKey item k)) (mkDataPoint loc)) := by
  induction rows with
  | nil => intro st k; simp
  | cons r rs ih =>
      intro st k
      rw [List.foldl_cons]
      rw [ih ((send_item_location o st item r now).1) k]
      by_cases hv : validServerUrl r.server_url = true
      · by_cases hk : item.serialNumber ++ "::" ++ withSlash r.server_url = k
        · have hr : rowSendsToKey item k r = true := by
            unfold rowSendsToKey
            rw [hv, Bool.true_and, beq_iff_eq]
            exact hk
          have hg : dictGet ((send_item_location o st item r now).1).pending_data k =
              some ((dictGet st.pending_data k).getD [] ++ [mkDataPoint loc]) := by
            rw [send_item_location_pending_fail o st item loc r now ho hloc,
                if_pos hv, hk]
            exact dictGet_dictSet_self _ _ _
          rw [List.countP_cons, hr]
          have hite : (if true = true then (1 : Nat) else 0) = 1 := rfl
          rw [hite]
          by_cases hn : rs.countP (rowSendsToKey item k) = 0
          · rw [if_pos hn, hg, hn]
            rfl
          · rw [if_neg hn, if_neg (Nat.succ_ne_zero _), hg]
            simp only [Option.getD_some, List.append_assoc, List.singleton_append,
              List.replicate_succ]
        · have hr : rowSendsToKey item k r = false := by
            unfold rowSendsToKey
            rw [hv, Bool.true_and]
            simp [hk]
          have hg : dictGet ((send_item_location o st item r now).1).pending_data k =
              dictGet st.pending_data k := by
            rw [send_item_location_pending_fail o st item loc r now ho hloc,
                if_pos hv]
            exact dictGet_dictSet_ne _ _ _ _ (Ne.symm hk)
          rw [List.countP_cons, hr, hg]
          have hite : (if false = true then (1 : Nat) else 0) = 0 := rfl
          rw [hite, Nat.add_zero]
      · have hv' : validServerUrl r.server_url = false := by
          cases h' : validServerUrl r.server_url
          · rfl
          · exact absurd h' hv
        have hr : rowSendsToKey item k r = false := by
          unfold rowSendsToKey
          rw [hv', Bool.false_and]
        have hst : (send_item_location o st item r now).1 = st :=
          send_item_location_invalid o st item loc r now hloc hv'
        rw [List.countP_cons, hr, hst]
        have hite : (if false = true then (1 : Nat) else 0) = 0 := rfl
        rw [hite, Nat.add_zero]

/-! ## The claims -/

/-- C1: for a pending key holding the points `pts`, any number M of
failed delivery attempts (non-200 status or network exception) leaves
the whole monitor state — in particular that queue, with its points in
order — unchanged; a subsequent HTTP 200 empties the queue for the key
and records the last-sent time for the serial; and no failing attempt
ever clears the queue. -/
theorem C1_failed_attempts_keep_queue_success_clears
    (st : MonitorState) (pending_key api_key serial base : String)
    (now : Rat) (pts : List DataPoint) (resps : List (Option Nat))
    (hq : dictGet st.pending_data pending_key = some pts) (hne : pts ≠ [])
    (hsplit : pySplitOnce "::" pending_key = [serial, base])
    (hfail : ∀ r ∈ resps, r ≠ some 200) :
    attemptMany st pending_key api_key resps now = st ∧
    dictGet (attemptMany st pending_key api_key resps now).pending_data
      pending_key = some pts ∧
    dictGet ((attempt_send_pending (attemptMany st pending_key api_key resps now)
        pending_key api_key (some 200) now).1).pending_data pending_key = some [] ∧
    dictGet ((attempt_send_pending (attemptMany st pending_key api_key resps now)
        pending_key api_key (some 200) now).1).last_sent_timestamps serial = some now ∧
    (∀ resp, resp ≠ some 200 →
      (attempt_send_pending st pending_key api_key resp now).1 = st) := by
  have hM := attemptMany_fail st pending_key api_key resps now hfail
  refine ⟨hM, by rw [hM]; exact hq, ?_, ?_, ?_⟩
  · rw [hM, attempt_send_pending_success st pending_key api_key serial base now
      pts hq hne hsplit]
    exact dictGet_dictSet_self _ _ _
  · rw [hM, attempt_send_pending_success st pending_key api_key serial base now
      pts hq hne hsplit]
    exact dictGet_dictSet_self _ _ _
  · intro resp hr
    exact attempt_send_pending_fail st pending_key api_key resp now hr

theorem C1_witness :
    attemptMany testState testKey "k1" [none, some 500] 99 = testState ∧
    dictGet ((attempt_send_pending
        (attemptMany testState testKey "k1" [none, some 500] 99)
        testKey "k1" (some 200) 99).1).pending_data testKey = some [] ∧
    dictGet ((attempt_send_pending
        (attemptMany testState testKey "k1" [none, some 500] 99)
        testKey "k1" (some 200) 99).1).last_sent_timestamps "ABCD" = some 99 := by
  have h := C1_failed_attempts_keep_queue_success_clears testState testKey "k1"
    "ABCD" "http://h/" 99 [testPoint] [none, some 500] rfl (by simp) rfl (by decide)
  exact ⟨h.1, h.2.2.1, h.2.2.2.1⟩

/-- C2: a delivery attempt for a non-empty key constructs exactly one
HTTP POST, and its JSON body carries under `"gps_data"` the full
ordered list of every point currently queued for the key. -/
theorem C2_batch_carries_whole_queue
    (st : MonitorState) (pending_key api_key serial base : String)
    (resp : Option Nat) (now : Rat) (pts : List DataPoint)
    (hq : dictGet st.pending_data pending_key = some pts) (hne : pts ≠ [])
    (hsplit : pySplitOnce "::" pending_key = [serial, base]) :
    (attempt_send_pending st pending_key api_key resp now).2 =
      some (batchRequest base api_key pts) ∧
    (batchRequest base api_key pts).gpsData = pts ∧
    (batchRequest base api_key pts).method = "POST" :=
  ⟨attempt_send_pending_req st pending_key api_key serial base resp now pts
      hq hne hsplit, rfl, rfl⟩

theorem C2_witness :
    (attempt_send_pending testState testKey "k1" (some 500) 99).2 =
      some (batchRequest "http://h/" "k1" [testPoint]) ∧
    (batchRequest "http://h/" "k1" [testPoint]).gpsData = [testPoint] := by
  have h := C2_batch_carries_whole_queue testState testKey "k1" "ABCD"
    "http://h/" (some 500) 99 [testPoint] rfl (by simp) rfl
  exact ⟨h.1, h.2.1⟩

/-- C3: one change event for an item fans out over the matching config
rows, and each matching row that passes the URL guards appends exactly
one copy of the item's fix to the queue of its (serial, destination)
key; queues of keys no matching row points at are untouched.  (The
always-failing network keeps the flush from consuming the appends, so
the append count is visible in the final queue.) -/
theorem C3_one_append_per_change_event
    (o : Oracle) (st : MonitorState) (item : FindMyItem)
    (loc : ItemLocation) (now : Rat) (k : String)
    (ho : ∀ key, o key ≠ some 200) (hloc : item.location = some loc) :
    dictGet ((send_item_location_to_all_configs o st item now).pending_data) k =
      if (st.config.filter
            (fun row => row.serial == item.serialNumber)).countP
            (rowSendsToKey item k) = 0 then
        dictGet st.pending_data k
      else
        some ((dictGet st.pending_data k).getD [] ++
              List.replicate
                ((st.config.filter
                    (fun row => row.serial == item.serialNumber)).countP
                  (rowSendsToKey item k))
                (mkDataPoint loc)) := by
  unfold send_item_location_to_all_configs
  exact foldSend_pending o item loc now ho hloc _ st k

theorem C3_witness :
    dictGet ((send_item_location_to_all_configs failOracle emptyState
        testItem 7).pending_data) testKey = some [mkDataPoint testLoc] := by
  have h := C3_one_append_per_change_event failOracle emptyState testItem
    testLoc 7 testKey (fun key => by simp [failOracle]) rfl
  rw [h]
  rfl

/-- C4: the source's change detector agrees with the spec's rule — no
previous counterpart means changed; an absent previous or new location
means unchanged; otherwise changed iff timestamp, latitude, or
longitude differs by exact inequality — and in particular a pair equal
on those three fields is unchanged regardless of the accuracy and
altitude fields. -/
theorem C4_change_rule (prev : List FindMyItem) (item : FindMyItem) :
    location_has_changed prev item = specChangeDetector prev item ∧
    (∀ (old : FindMyItem) (ol nl : ItemLocation),
      prev.find? (fun x => x.serialNumber == item.serialNumber) = some old →
      old.location = some ol → item.location = some nl →
      ol.timeStamp = nl.timeStamp → ol.latitude = nl.latitude →
      ol.longitude = nl.longitude →
      location_has_changed prev item = false) := by
  constructor
  · unfold location_has_changed specChangeDetector
    cases hf : prev.find? (fun x => x.serialNumber == item.serialNumber) with
    | none =>
        have hany : prev.any (fun x => x.serialNumber == item.serialNumber) = false := by
          rw [List.any_eq_false]
          intro x hx
          simpa using List.find?_eq_none.mp hf x hx
        rw [hany]
        simp
    | some old =>
        have hp := List.find?_some hf
        have hany : prev.any (fun x => x.serialNumber == item.serialNumber) = true := by
          rw [List.any_eq_true]
          exact ⟨old, List.mem_of_find?_eq_some hf, hp⟩
        rw [hany]
        simp only [Bool.not_true, Bool.false_eq_true, if_false]
        cases hol : old.location with
        | none => cases hnl : item.location <;> rfl
        | some ol =>
            cases hnl : item.location with
            | none => rfl
            | some nl =>
                by_cases h1 : ol.timeStamp = nl.timeStamp <;>
                  by_cases h2 : ol.latitude = nl.latitude <;>
                    by_cases h3 : ol.longitude = nl.longitude <;>
                      simp [h1, h2, h3, bne_iff_ne]
  · intro old ol nl hf hol hnl h1 h2 h3
    unfold location_has_changed
    rw [hf]
    dsimp only
    simp [hol, hnl, h1, h2, h3]

theorem C4_witness :
    location_has_changed [oldTestItem] newTestItemAcc =
      specChangeDetector [oldTestItem] newTestItemAcc ∧
    location_has_changed [oldTestItem] newTestItemAcc = false := by
  have h := C4_change_rule [oldTestItem] newTestItemAcc
  exact ⟨h.1, h.2 oldTestItem _ _ rfl rfl rfl rfl rfl rfl⟩

/-- C5: every mutating operation — the append done by
`send_item_location` and the clear done by `attempt_send_pending` on
success — writes the store to disk before returning, so a state whose
file matches its in-memory store still has a matching file after
either operation, whatever the outcome. -/
theorem C5_disk_matches_memory_after_mutation
    (o : Oracle) (st : MonitorState) (item : FindMyItem) (row : TagRow)
    (pending_key api_key : String) (resp : Option Nat) (now : Rat)
    (h : diskInv st) :
    diskInv (send_item_location o st item row now).1 ∧
    diskInv (attempt_send_pending st pending_key api_key resp now).1 :=
  ⟨send_item_location_diskInv o st item row now h,
   attempt_send_pending_diskInv st pending_key api_key resp now h⟩

theorem C5_witness :
    diskInv (send_item_location failOracle testState testItem testRow 7).1 ∧
    diskInv (attempt_send_pending testState testKey "k1" (some 200) 7).1 :=
  C5_disk_matches_memory_after_mutation failOracle testState testItem testRow
    testKey "k1" (some 200) 7 rfl

/-- C6: loading the persisted queue never fails: a missing file, an
unreadable/unparsable file, and a parse to a non-dict all yield the
empty queue, while a parse to a dict is returned as-is. -/
theorem C6_load_fails_open :
    load_pending_data .missing = Json.obj [] ∧
    load_pending_data .corrupt = Json.obj [] ∧
    (∀ kvs, load_pending_data (.content (Json.obj kvs)) = Json.obj kvs) ∧
    (∀ j, j.isObjB = false → load_pending_data (.content j) = Json.obj []) := by
  refine ⟨rfl, rfl, fun kvs => rfl, fun j hj => ?_⟩
  cases j <;> simp_all [load_pending_data, Json.isObjB]

theorem C6_witness :
    load_pending_data (.content (Json.num 3)) = Json.obj [] ∧
    load_pending_data .missing = Json.obj [] :=
  ⟨C6_load_fails_open.2.2.2 (Json.num 3) rfl, C6_load_fails_open.1⟩

theorem decodeDataPoint_encodeDataPoint (p : DataPoint) :
    decodeDataPoint (encodeDataPoint p) = some p := rfl

theorem decodePointList_encode (l : List DataPoint) :
    decodePointList (l.map encodeDataPoint) = some l := by
  induction l with
  | nil => rfl
  | cons p ps ih =>
      rw [List.map_cons]
      unfold decodePointList
      rw [decodeDataPoint_encodeDataPoint, ih]

theorem decodeEntries_encode (d : PendingData) :
    decodeEntries (d.map (fun e => (e.1, Json.arr (e.2.map encodeDataPoint)))) =
      some d := by
  induction d with
  | nil => rfl
  | cons e rest ih =>
      obtain ⟨k, ps⟩ := e
      rw [List.map_cons]
      unfold decodeEntries
      rw [decodePointList_encode, ih]

/-- C7: persisting any pending-queue mapping and loading it back yields
the original mapping. -/
theorem C7_persist_roundtrip (d : PendingData) :
    decodePendingData (load_pending_data (.content (save_pending_data d))) =
      some d := by
  unfold save_pending_data encodePendingData load_pending_data decodePendingData
  exact decodeEntries_encode d

/-! ## URL facts needed for the request-format claim -/

/-- C9: the source reader always attaches a location to every item it
produces — a record with a missing location object (or missing fields)
yields the all-zero fix rather than an absent location — so the change
detector's absent-location branch is never taken on reader-produced
items: whenever a counterpart is found, the result is the pure
three-field comparison. -/
theorem C9_reader_never_absent_location
    (ds : List RawRecord) (r : RawRecord) :
    (∀ it ∈ parse_items ds, it.location.isSome) ∧
    (r.location = none → (parse_item r).location = some zeroLocation) ∧
    (∀ (prev : List RawRecord) (d : RawRecord) (old : FindMyItem),
      (parse_items prev).find?
          (fun x => x.serialNumber == (parse_item d).serialNumber) = some old →
      ∃ ol nl, old.location = some ol ∧ (parse_item d).location = some nl ∧
        location_has_changed (parse_items prev) (parse_item d) =
          ((ol.timeStamp != nl.timeStamp) || (ol.latitude != nl.latitude) ||
           (ol.longitude != nl.longitude))) := by
  refine ⟨?_, ?_, ?_⟩
  · intro it hit
    unfold parse_items at hit
    obtain ⟨dd, _, rfl⟩ := List.mem_map.mp hit
    rfl
  · intro h
    unfold parse_item
    rw [h]
    simp [rawGet, dictGet, zeroLocation, zero_div]
  · intro prev d old hf
    have hmem := List.mem_of_find?_eq_some hf
    unfold parse_items at hmem
    obtain ⟨dd, _, hdd⟩ := List.mem_map.mp hmem
    obtain ⟨ol, hol⟩ : ∃ ol, old.location = some ol := by
      rw [← hdd]; exact ⟨_, rfl⟩
    obtain ⟨nl, hnl⟩ : ∃ nl, (parse_item d).location = some nl := ⟨_, rfl⟩
    refine ⟨ol, nl, hol, hnl, ?_⟩
    unfold location_has_changed
    rw [hf]
    dsimp only
    rw [hol, hnl]

theorem C9_witness :
    (parse_item noLocRecord).location = some zeroLocation :=
  (C9_reader_never_absent_location [] noLocRecord).2.1 rfl

/-- C10: the pending-queue key is built from the serial number and the
(normalised) base URL only — two rows sharing serial and base URL but
holding different API keys feed one shared queue, and a flush through
the second row sends every queued point (both appends) with the second
row's API key. -/
theorem C10_key_ignores_api_key
    (o : Oracle) (st : MonitorState) (item : FindMyItem) (loc : ItemLocation)
    (r1 r2 : TagRow) (now : Rat) (resp : Option Nat)
    (ho : ∀ key, o key ≠ some 200) (hloc : item.location = some loc)
    (hurl : r2.server_url = r1.server_url)
    (hv : validServerUrl r1.server_url = true)
    (hsplit : pySplitOnce "::" (item.serialNumber ++ "::" ++ withSlash r1.server_url) =
      [item.serialNumber, withSlash r1.server_url]) :
    dictGet ((send_item_location o (send_item_location o st item r1 now).1
        item r2 now).1).pending_data
        (item.serialNumber ++ "::" ++ withSlash r1.server_url) =
      some ((dictGet st.pending_data
          (item.serialNumber ++ "::" ++ withSlash r1.server_url)).getD [] ++
        [mkDataPoint loc, mkDataPoint loc]) ∧
    (attempt_send_pending
        (send_item_location o (send_item_location o st item r1 now).1 item r2 now).1
        (item.serialNumber ++ "::" ++ withSlash r1.server_url)
        r2.api_key resp now).2 =
      some (batchRequest (withSlash r1.server_url) r2.api_key
        ((dictGet st.pending_data
            (item.serialNumber ++ "::" ++ withSlash r1.server_url)).getD [] ++
          [mkDataPoint loc, mkDataPoint loc])) ∧
    dictGet (batchRequest (withSlash r1.server_url) r2.api_key
        ((dictGet st.pending_data
            (item.serialNumber ++ "::" ++ withSlash r1.server_url)).getD [] ++
          [mkDataPoint loc, mkDataPoint loc])).query "api_key" =
      some [r2.api_key] := by
  have h1 := send_item_location_pending_fail o st item loc r1 now ho hloc
  rw [if_pos hv] at h1
  have hg1 : dictGet ((send_item_location o st item r1 now).1).pending_data
      (item.serialNumber ++ "::" ++ withSlash r1.server_url) =
      some ((dictGet st.pending_data
          (item.serialNumber ++ "::" ++ withSlash r1.server_url)).getD [] ++
        [mkDataPoint loc]) := by
    rw [h1]
    exact dictGet_dictSet_self _ _ _
  have h2 := send_item_location_pending_fail o
    ((send_item_location o st item r1 now).1) item loc r2 now ho hloc
  rw [hurl, if_pos hv] at h2
  have hg2 : dictGet ((send_item_location o (send_item_location o st item r1 now).1
      item r2 now).1).pending_data
      (item.serialNumber ++ "::" ++ withSlash r1.server_url) =
      some ((dictGet st.pending_data
          (item.serialNumber ++ "::" ++ withSlash r1.server_url)).getD [] ++
        [mkDataPoint loc, mkDataPoint loc]) := by
    rw [h2]
    rw [dictGet_dictSet_self, hg1]
    simp
  refine ⟨hg2, ?_, dictGet_dictSet_self _ _ _⟩
  exact attempt_send_pending_req _ _ _ _ _ _ _ _ hg2 (by simp) hsplit

theorem C10_witness :
    dictGet ((send_item_location failOracle
        (send_item_location failOracle emptyState testItem testRow 5).1
        testItem testRow2 5).1).pending_data testKey =
      some [testPoint, testPoint] ∧
    dictGet (batchRequest "http://h/" "k2" [testPoint, testPoint]).query
      "api_key" = some ["k2"] := by
  have h := C10_key_ignores_api_key failOracle emptyState testItem testLoc
    testRow testRow2 5 (some 500) (fun key => by simp [failOracle]) rfl rfl
    (by decide) rfl
  exact ⟨h.1, h.2.2⟩

end WayPointDB
